import Mathlib

/-!
Shallow embedding of the recorder storage models of
homeassistant/components/recorder/db_schema.py: the row types of the
events, event_data, states, state_attributes, statistics and
recorder_runs tables and the conversions between native objects and rows.

Modelling conventions: Python floats holding epoch-seconds timestamps are
modelled as rationals; nullable columns are `Option`; Python dicts used as
JSON payloads are modelled as ordered association lists at the depth the
recorder inspects them (top-level keys, null-ness of values, serialized
length), with nested values abstracted as scalar leaves; serialized byte
strings are modelled as `String` with byte length as string length.
-/

namespace Recorder

/-- Epoch-seconds timestamps (abstraction of the Python float). -/
abbrev Timestamp := ℚ

/-- A native UTC datetime, identified with its epoch-seconds value. -/
structure UtcDateTime where
  epoch : Timestamp
deriving DecidableEq, Repr

/-- Model of dt_util.utc_to_timestamp: datetime to epoch-seconds float. -/
def utc_to_timestamp (d : UtcDateTime) : Timestamp := d.epoch

/-- Model of dt_util.utc_from_timestamp: epoch-seconds float to a UTC
datetime. -/
def utc_from_timestamp (t : Timestamp) : UtcDateTime := ⟨t⟩

/-- Modelled from the spec: homeassistant.core.EventOrigin (not under
src/) — the origin of an event is enumerated, local or remote. -/
inductive EventOrigin where
  | local
  | remote
deriving DecidableEq, BEq, Repr

/-- Modelled from the spec: the native context triple carried by events
and states (homeassistant.core.Context is not under src/). -/
structure Context where
  id : Option String
  user_id : Option String
  parent_id : Option String
deriving DecidableEq, Repr

/-- JSON values as the recorder's code inspects them: scalar leaves.
Nested structures are abstracted as leaves; the recorder itself only
examines top-level keys, null-ness and serialized length. -/
inductive JsonVal where
  | null
  | bool (b : Bool)
  | num (n : Int)
  | str (s : String)
deriving DecidableEq, Repr

/-- A JSON object: ordered key/value pairs (Python dict insertion
order). -/
abbrev JsonObj := List (String × JsonVal)

/-- Serialize one scalar JSON value. -/
def jsonEncodeAtom : JsonVal → String
  | .null => "null"
  | .bool true => "true"
  | .bool false => "false"
  | .num n => toString n
  | .str s => "\"" ++ s ++ "\""

/-- Serialize the fields of a JSON object, comma separated. -/
def jsonEncodeFields : JsonObj → String
  | [] => ""
  | [(k, v)] => "\"" ++ k ++ "\":" ++ jsonEncodeAtom v
  | (k, v) :: rest =>
      "\"" ++ k ++ "\":" ++ jsonEncodeAtom v ++ "," ++ jsonEncodeFields rest

/-- Modelled from the spec: the canonical JSON byte encoding of a payload
(homeassistant.helpers.json.json_bytes is not under src/). -/
def json_bytes (obj : JsonObj) : String :=
  "\x7b" ++ jsonEncodeFields obj ++ "\x7d"

/-- Modelled from the spec: the strip-null variant of the canonical
encoding omits every key whose value is null
(homeassistant.helpers.json.json_bytes_strip_null is not under src/). -/
def json_bytes_strip_null (obj : JsonObj) : String :=
  json_bytes (obj.filter fun kv => decide (kv.2 ≠ JsonVal.null))

/-- Read a JSON string body up to the closing quote (escape sequences are
outside the modelled encoding). -/
def parseStrBody : List Char → String → Option (String × List Char)
  | [], _ => none
  | '"' :: rest, acc => some (acc, rest)
  | '\\' :: _, _ => none
  | c :: rest, acc => parseStrBody rest (acc.push c)

/-- Numeric value of a run of decimal digits. -/
def digitsVal (ds : List Char) : Nat :=
  ds.foldl (fun acc c => acc * 10 + (c.toNat - '0'.toNat)) 0

/-- Parse one scalar JSON value from a character stream. -/
def parseAtom : List Char → Option (JsonVal × List Char)
  | 'n' :: 'u' :: 'l' :: 'l' :: rest => some (.null, rest)
  | 't' :: 'r' :: 'u' :: 'e' :: rest => some (.bool true, rest)
  | 'f' :: 'a' :: 'l' :: 's' :: 'e' :: rest => some (.bool false, rest)
  | '"' :: rest => (parseStrBody rest "").map fun p => (.str p.1, p.2)
  | '-' :: rest =>
      match rest.span Char.isDigit with
      | ([], _) => none
      | (ds, rest2) => some (.num (-(digitsVal ds : Int)), rest2)
  | cs =>
      match cs.span Char.isDigit with
      | ([], _) => none
      | (ds, rest2) => some (.num (digitsVal ds : Int), rest2)

/-- Parse the comma-separated fields following an opening brace; the fuel
bounds the recursion. -/
def parseFields : Nat → List Char → Option (JsonObj × List Char)
  | 0, _ => none
  | fuel + 1, cs =>
    match cs with
    | '\x7d' :: rest => some ([], rest)
    | '"' :: rest =>
      match parseStrBody rest "" with
      | some (k, ':' :: rest2) =>
        match parseAtom rest2 with
        | some (v, '\x7d' :: rest3) => some ([(k, v)], rest3)
        | some (v, ',' :: rest3) =>
          match parseFields fuel rest3 with
          | some (kvs, rest4) => some ((k, v) :: kvs, rest4)
          | none => none
        | _ => none
      | _ => none
    | _ => none

/-- Modelled from the spec: homeassistant.helpers.json.json_loads (not
under src/) — decodes the canonical flat-object encoding back to a dict;
any input outside that encoding is undecodable and raises the decode
error that the callers in db_schema.py catch. -/
def json_loads (s : String) : Option JsonObj :=
  match s.data with
  | '\x7b' :: rest =>
    match parseFields (s.length + 1) rest with
    | some (kvs, []) => some kvs
    | _ => none
  | _ => none

/-- Modelled from the spec: a native state object (entity-id, state
string, attributes mapping, last-changed/last-updated timestamps,
context). -/
structure State where
  entity_id : String
  state : String
  attributes : JsonObj
  last_changed : UtcDateTime
  last_updated : UtcDateTime
  context : Context
deriving DecidableEq, Repr

/-- The payload of a native event: either a generic JSON mapping or the
state_changed payload (entity-id plus optional new state). -/
inductive EventPayload where
  | json (obj : JsonObj)
  | stateChanged (entity_id : String) (new_state : Option State)
deriving DecidableEq, Repr

/-- Modelled from the spec: a native event object (type tag, data,
origin, fired-at, context). -/
structure Event where
  event_type : String
  data : EventPayload
  origin : EventOrigin
  time_fired : UtcDateTime
  context : Context
deriving DecidableEq, Repr

/-- EVENT_ORIGIN_ORDER from db_schema.py. -/
def EVENT_ORIGIN_ORDER : List EventOrigin := [.local, .remote]

/-- EVENT_ORIGIN_TO_IDX from db_schema.py: the dict built by enumerating
EVENT_ORIGIN_ORDER; dict.get returns an optional index. -/
def EVENT_ORIGIN_TO_IDX (o : EventOrigin) : Option Nat :=
  (EVENT_ORIGIN_ORDER.enum.find? fun p => p.2 == o).map Prod.fst

/-- Python list indexing EVENT_ORIGIN_ORDER[i]; a missing or
out-of-range index raises in the source, modelled as none. -/
def originFromIdx (i : Option Nat) : Option EventOrigin :=
  match i with
  | some i => EVENT_ORIGIN_ORDER.get? i
  | none => none

/-- Modelled from the spec: constructing EventOrigin from the legacy
inline origin string stored by pre-migration rows (enum lookup by value;
an unknown string raises, modelled as none). -/
def eventOriginOfString (s : String) : Option EventOrigin :=
  if s = "LOCAL" then some EventOrigin.local
  else if s = "REMOTE" then some EventOrigin.remote
  else none

/-- A row of the events table; nullable columns are optional. -/
structure EventsRow where
  event_type : String
  event_data : Option String
  origin : Option String
  origin_idx : Option Nat
  time_fired : Option UtcDateTime
  time_fired_ts : Option Timestamp
  context_id : Option String
  context_user_id : Option String
  context_parent_id : Option String
  data_id : Option Nat
deriving DecidableEq, Repr

/-- Events.from_event: build an events row from a native event; the
legacy inline columns (event_data, origin, time_fired) are written as
null for new rows. -/
def Events.from_event (e : Event) : EventsRow :=
  { event_type := e.event_type
    event_data := none
    origin := none
    origin_idx := EVENT_ORIGIN_TO_IDX e.origin
    time_fired := none
    time_fired_ts := some (utc_to_timestamp e.time_fired)
    context_id := e.context.id
    context_user_id := e.context.user_id
    context_parent_id := e.context.parent_id
    data_id := none }

/-- The outcome of a to_native read: a reconstructed value, a
logged-and-None return, or an uncaught exception propagating to the
caller. -/
inductive ReadResult (α : Type) where
  | value (a : α)
  | nullResult
  | raised
deriving DecidableEq, Repr

/-- Events.to_native, following the argument evaluation order of the
source: the payload JSON is decoded first (a decode failure is caught,
logged and returns None); the origin and the fired-at timestamp are then
resolved, and a failure there raises. A falsy (null or empty) inline
event_data column yields the empty dict without decoding. -/
def Events.to_native (row : EventsRow) : ReadResult Event :=
  let data? : Option JsonObj :=
    match row.event_data with
    | some s => if s = "" then some [] else json_loads s
    | none => some []
  match data? with
  | none => ReadResult.nullResult
  | some d =>
    let origin? : Option EventOrigin :=
      match row.origin with
      | some s => if s = "" then originFromIdx row.origin_idx else eventOriginOfString s
      | none => originFromIdx row.origin_idx
    match origin? with
    | none => ReadResult.raised
    | some o =>
      match row.time_fired_ts with
      | none => ReadResult.raised
      | some ts =>
        ReadResult.value
          { event_type := row.event_type
            data := EventPayload.json d
            origin := o
            time_fired := utc_from_timestamp ts
            context :=
              { id := row.context_id
                user_id := row.context_user_id
                parent_id := row.context_parent_id } }

/-- The dialect enumeration of recorder/const.py (SupportedDialect is not
under src/; modelled from the spec — only the PostgreSQL distinction
matters to the encoders). -/
inductive SupportedDialect where
  | mysql
  | postgresql
  | sqlite
deriving DecidableEq, Repr

/-- A row of the event_data table (dedup payload store for events). -/
structure EventDataRow where
  data_id : Nat
  hash : Option Int
  shared_data : Option String
deriving DecidableEq, Repr

/-- EventData.shared_data_bytes_from_event: the strip-null encoder is
used exactly for PostgreSQL, the plain canonical encoder otherwise. The
source serializes event.data; serializing a payload that is not a JSON
mapping is outside the model (none). -/
def EventData.shared_data_bytes_from_event (e : Event)
    (dialect : Option SupportedDialect) : Option String :=
  match e.data with
  | EventPayload.json obj =>
    if dialect = some SupportedDialect.postgresql then
      some (json_bytes_strip_null obj)
    else
      some (json_bytes obj)
  | _ => none

/-- EventData.to_native: decode shared_data; a decode failure is caught,
logged and yields the empty dict (a null column is undecodable input to
json_loads and takes the same caught path). -/
def EventData.to_native (row : EventDataRow) : ReadResult JsonObj :=
  match row.shared_data with
  | some s =>
    match json_loads s with
    | some obj => ReadResult.value obj
    | none => ReadResult.value []
  | none => ReadResult.value []

/-- A row of the states table; nullable columns are optional. -/
structure StatesRow where
  entity_id : String
  state : String
  attributes : Option String
  last_changed : Option UtcDateTime
  last_changed_ts : Option Timestamp
  last_updated : Option UtcDateTime
  last_updated_ts : Option Timestamp
  old_state_id : Option Nat
  attributes_id : Option Nat
  context_id : Option String
  context_user_id : Option String
  context_parent_id : Option String
  origin_idx : Option Nat
deriving DecidableEq, Repr

/-- States.from_event: build a states row from a state_changed event.
An event whose payload is not a state_changed mapping raises KeyError in
the source; that is modelled as none. The base row holds the fields set
in the States(...) constructor call; the state and timestamp fields are
then assigned on both branches, exactly as in the source. -/
def States.from_event (e : Event) : Option StatesRow :=
  match e.data with
  | EventPayload.stateChanged entity_id new_state =>
    let base : StatesRow :=
      { entity_id := entity_id
        state := ""
        attributes := none
        last_changed := none
        last_changed_ts := none
        last_updated := none
        last_updated_ts := none
        old_state_id := none
        attributes_id := none
        context_id := e.context.id
        context_user_id := e.context.user_id
        context_parent_id := e.context.parent_id
        origin_idx := EVENT_ORIGIN_TO_IDX e.origin }
    match new_state with
    | none =>
      some { base with
              state := ""
              last_updated_ts := some (utc_to_timestamp e.time_fired)
              last_changed_ts := none }
    | some state =>
      some { base with
              state := state.state
              last_updated_ts := some (utc_to_timestamp state.last_updated)
              last_changed_ts :=
                if state.last_updated = state.last_changed then none
                else some (utc_to_timestamp state.last_changed) }
  | _ => none

/-- States.to_native: decode the legacy inline attributes column (a
falsy column yields the empty dict; a decode failure is caught, logged
and returns None); last_changed collapses to last_updated when the
stored last_changed_ts is null or equal to last_updated_ts; a null
last_updated_ts is read as epoch 0 (the Python or-0 fallback). -/
def States.to_native (row : StatesRow) : ReadResult State :=
  let attrs? : Option JsonObj :=
    match row.attributes with
    | some s => if s = "" then some [] else json_loads s
    | none => some []
  match attrs? with
  | none => ReadResult.nullResult
  | some attrs =>
    let ctx : Context :=
      { id := row.context_id
        user_id := row.context_user_id
        parent_id := row.context_parent_id }
    let lu := utc_from_timestamp ((row.last_updated_ts).getD 0)
    if row.last_changed_ts = none ∨ row.last_changed_ts = row.last_updated_ts then
      ReadResult.value
        { entity_id := row.entity_id
          state := row.state
          attributes := attrs
          last_changed := lu
          last_updated := lu
          context := ctx }
    else
      ReadResult.value
        { entity_id := row.entity_id
          state := row.state
          attributes := attrs
          last_changed := utc_from_timestamp ((row.last_changed_ts).getD 0)
          last_updated := lu
          context := ctx }

/-- A row of the state_attributes table (dedup payload store for state
attributes). -/
structure StateAttributesRow where
  attributes_id : Nat
  hash : Option Int
  shared_attrs : Option String
deriving DecidableEq, Repr

/-- Modelled from the spec: the global attribute exclusion set
(ALL_DOMAIN_EXCLUDE_ATTRS of recorder/const.py is not under src/);
Python sets of strings are modelled as lists, membership being what
matters. -/
def ALL_DOMAIN_EXCLUDE_ATTRS : List String :=
  ["attribution", "restored", "supported_features"]

/-- The per-domain exclusion mapping passed to the encoder. -/
abbrev ExcludeAttrsByDomain := List (String × List String)

/-- Python dict.get(domain, set()) on the exclusion mapping. -/
def domainExcludeAttrs (m : ExcludeAttrsByDomain) (domain : String) : List String :=
  match m.lookup domain with
  | some s => s
  | none => []

/-- Split a character stream at the first dot, accumulating the part
before it. -/
def splitAtFirstDot : List Char → String → String × String
  | [], acc => (acc, "")
  | '.' :: rest, acc => (acc, String.mk rest)
  | c :: rest, acc => splitAtFirstDot rest (acc.push c)

/-- Modelled from the spec: homeassistant.core.split_entity_id (not
under src/) — split "domain.object_id" at the first dot. -/
def split_entity_id (entity_id : String) : String × String :=
  splitAtFirstDot entity_id.data ""

/-- MAX_STATE_ATTRS_BYTES from db_schema.py. -/
def MAX_STATE_ATTRS_BYTES : Nat := 16384

/-- The bytes_result expression of shared_attrs_bytes_from_event: encode
the state's attributes after dropping every key in the union of the
domain-specific and the global exclusion sets, with the strip-null
encoder exactly on PostgreSQL. -/
def shared_attrs_encoded (state : State)
    (exclude_attrs_by_domain : ExcludeAttrsByDomain)
    (dialect : Option SupportedDialect) : String :=
  let domain := (split_entity_id state.entity_id).1
  let exclude_attrs :=
    domainExcludeAttrs exclude_attrs_by_domain domain ++ ALL_DOMAIN_EXCLUDE_ATTRS
  let encoder :=
    if dialect = some SupportedDialect.postgresql then json_bytes_strip_null
    else json_bytes
  encoder (state.attributes.filter fun kv => decide (kv.1 ∉ exclude_attrs))

/-- StateAttributes.shared_attrs_bytes_from_event; the Bool flag records
whether the oversize warning was logged. A removed state (null
new_state) yields the empty-object encoding immediately; an oversize
encoding is replaced by the empty-object encoding with a warning. An
event whose payload is not a state_changed mapping is outside the model
(none). -/
def StateAttributes.shared_attrs_bytes_from_event (e : Event)
    (exclude_attrs_by_domain : ExcludeAttrsByDomain)
    (dialect : Option SupportedDialect) : Option (String × Bool) :=
  match e.data with
  | EventPayload.stateChanged _ new_state =>
    match new_state with
    | none => some (json_bytes [], false)
    | some state =>
      let bytes_result := shared_attrs_encoded state exclude_attrs_by_domain dialect
      if bytes_result.length > MAX_STATE_ATTRS_BYTES then some (json_bytes [], true)
      else some (bytes_result, false)
  | _ => none

/-- StateAttributes.to_native: decode shared_attrs; a decode failure is
caught, logged and yields the empty dict (a null column is undecodable
input to json_loads and takes the same caught path). -/
def StateAttributes.to_native (row : StateAttributesRow) : ReadResult JsonObj :=
  match row.shared_attrs with
  | some s =>
    match json_loads s with
    | some obj => ReadResult.value obj
    | none => ReadResult.value []
  | none => ReadResult.value []

/-- A schema index declaration (name, column list, uniqueness flag). -/
structure IndexDecl where
  name : String
  columns : List String
  unique : Bool
deriving DecidableEq, Repr

/-- The index declarations of the statistics table (long term): a unique
index on (metadata_id, start). -/
def Statistics.table_args : List IndexDecl :=
  [{ name := "ix_statistics_statistic_id_start"
     columns := ["metadata_id", "start"]
     unique := true }]

/-- The index declarations of the statistics_short_term table: a unique
index on (metadata_id, start). -/
def StatisticsShortTerm.table_args : List IndexDecl :=
  [{ name := "ix_statistics_short_term_statistic_id_start"
     columns := ["metadata_id", "start"]
     unique := true }]

/-- The bucket duration of the statistics table (timedelta(hours=1)). -/
def Statistics.duration_seconds : Nat := 3600

/-- The bucket duration of the statistics_short_term table
(timedelta(minutes=5)). -/
def StatisticsShortTerm.duration_seconds : Nat := 300

/-- A statistics aggregate row (shape shared by the long-term and the
short-term tables, both derived from StatisticsBase). -/
structure StatisticsRow where
  id : Nat
  metadata_id : Option Nat
  start : UtcDateTime
  created : Option UtcDateTime
  mean : Option Timestamp
  min : Option Timestamp
  max : Option Timestamp
  last_reset : Option UtcDateTime
  state : Option Timestamp
  sum : Option Timestamp
deriving DecidableEq, Repr

/-- The key covered by the unique index of both statistics tables. -/
def statKey (r : StatisticsRow) : Option Nat × Timestamp :=
  (r.metadata_id, r.start.epoch)

/-- Modelled from the spec: the backing store's enforcement of the
declared unique index — inserting a row whose (metadata reference,
bucket start) key already exists signals a conflict error instead of
overwriting; otherwise the row is appended. -/
def uniqueIndexInsert (table : List StatisticsRow) (row : StatisticsRow) :
    Except String (List StatisticsRow) :=
  if table.any fun r => decide (statKey r = statKey row) then
    Except.error "UNIQUE constraint failed"
  else
    Except.ok (table ++ [row])

/-- At most one aggregate row per (metadata reference, bucket start). -/
def atMostOnePerKey (table : List StatisticsRow) : Prop :=
  List.Pairwise (fun a b => statKey a ≠ statKey b) table

/-- A row of the recorder_runs table. -/
structure RecorderRun where
  run_id : Nat
  start : UtcDateTime
  end_ : Option UtcDateTime
  closed_incorrect : Bool
deriving DecidableEq, Repr

/-- RecorderRuns.entity_ids over an explicit states table (standing for
the rows reachable through the session): the distinct entity_ids of rows
whose legacy last_updated column is at least the run start and below
point_in_time when one is given, otherwise below the run end when set,
otherwise unbounded. Rows with a null last_updated fail both SQL
comparisons. -/
def RecorderRuns.entity_ids (db : List StatesRow) (run : RecorderRun)
    (point_in_time : Option UtcDateTime) : Finset String :=
  let lower : List StatesRow := db.filter fun r =>
    match r.last_updated with
    | some t => decide (run.start.epoch ≤ t.epoch)
    | none => false
  let bounded : List StatesRow :=
    match point_in_time with
    | some p =>
      lower.filter fun r =>
        match r.last_updated with
        | some t => decide (t.epoch < p.epoch)
        | none => false
    | none =>
      match run.end_ with
      | some e =>
        lower.filter fun r =>
          match r.last_updated with
          | some t => decide (t.epoch < e.epoch)
          | none => false
      | none => lower
  (bounded.map fun r => r.entity_id).toFinset

/-- The claim's entityIdsActiveDuring, following the spec's words: the
distinct entity-ids of rows whose last-updated lies in
[run.start, min(point_in_time, run.end-or-now)). -/
def entityIdsActiveDuring (db : List StatesRow) (run : RecorderRun)
    (point_in_time : Option UtcDateTime) (now : UtcDateTime) : Finset String :=
  let endOrNow : Timestamp := ((run.end_).getD now).epoch
  let upper : Timestamp :=
    match point_in_time with
    | some p => min p.epoch endOrNow
    | none => endOrNow
  let inWindow : List StatesRow := db.filter fun r =>
    match r.last_updated with
    | some t => decide (run.start.epoch ≤ t.epoch) && decide (t.epoch < upper)
    | none => false
  (inWindow.map fun r => r.entity_id).toFinset

/-- The spec's description of the stored attribute pairs (used to compare
against the source's shared_attrs_encoded): drop every key in the
domain-specific or the global exclusion set, and drop null-valued keys
exactly under PostgreSQL. -/
def specStoredAttrPairs (state : State)
    (exclude_attrs_by_domain : ExcludeAttrsByDomain)
    (dialect : Option SupportedDialect) : JsonObj :=
  state.attributes.filter fun kv =>
    decide (kv.1 ∉ domainExcludeAttrs exclude_attrs_by_domain
      (split_entity_id state.entity_id).1) &&
    decide (kv.1 ∉ ALL_DOMAIN_EXCLUDE_ATTRS) &&
    (if dialect = some SupportedDialect.postgresql then decide (kv.2 ≠ JsonVal.null)
     else true)

/-- C1: converting a native event with Events.from_event and reading the
row back with Events.to_native reconstructs an event with the same
event_type, the same origin, the same context triple and a time_fired
equal to the original (exact in the epoch-seconds model, hence within
floating-point epoch precision). -/
theorem events_roundtrip_c1 (e : Event) :
    ∃ e' : Event,
      Events.to_native (Events.from_event e) = ReadResult.value e' ∧
      e'.event_type = e.event_type ∧
      e'.origin = e.origin ∧
      e'.context = e.context ∧
      e'.time_fired = e.time_fired := by
  cases e with
  | mk ty da o tf cx =>
    cases o <;> exact ⟨_, rfl, rfl, rfl, rfl, rfl⟩

/-- A sample context used by concrete instantiations. -/
def exContext : Context := { id := some "ctx", user_id := none, parent_id := none }

/-- A sample native state whose last_changed differs from last_updated. -/
def exState : State :=
  { entity_id := "light.kitchen"
    state := "on"
    attributes := [("brightness", JsonVal.num 100)]
    last_changed := ⟨10⟩
    last_updated := ⟨20⟩
    context := exContext }

/-- A sample state_changed event carrying exState. -/
def exEventS : Event :=
  { event_type := "state_changed"
    data := EventPayload.stateChanged "light.kitchen" (some exState)
    origin := EventOrigin.local
    time_fired := ⟨20⟩
    context := exContext }

/-- The states row States.from_event produces for exEventS. -/
def exRowS : StatesRow :=
  { entity_id := "light.kitchen"
    state := "on"
    attributes := none
    last_changed := none
    last_changed_ts := some 10
    last_updated := none
    last_updated_ts := some 20
    old_state_id := none
    attributes_id := none
    context_id := some "ctx"
    context_user_id := none
    context_parent_id := none
    origin_idx := some 0 }

/-- A stored states row with a null last_changed_ts. -/
def exRowCollapsed : StatesRow :=
  { entity_id := "light.kitchen"
    state := "on"
    attributes := none
    last_changed := none
    last_changed_ts := none
    last_updated := none
    last_updated_ts := some 20
    old_state_id := none
    attributes_id := none
    context_id := none
    context_user_id := none
    context_parent_id := none
    origin_idx := some 0 }

/-- The native state States.to_native reads back from exRowCollapsed. -/
def exStateRead : State :=
  { entity_id := "light.kitchen"
    state := "on"
    attributes := []
    last_changed := ⟨20⟩
    last_updated := ⟨20⟩
    context := { id := none, user_id := none, parent_id := none } }

/-- C2: for a state_changed event with a non-null new state,
States.from_event stores last_changed_ts as null exactly when the
state's last_changed equals its last_updated and otherwise stores the
state's last_changed epoch; and States.to_native reconstructs
last_changed equal to last_updated whenever the stored last_changed_ts
is null or equal to last_updated_ts. -/
theorem states_last_changed_c2 :
    (∀ (e : Event) (eid : String) (s : State) (row : StatesRow),
        e.data = EventPayload.stateChanged eid (some s) →
        States.from_event e = some row →
        ((row.last_changed_ts = none ↔ s.last_changed = s.last_updated) ∧
          (s.last_changed ≠ s.last_updated →
            row.last_changed_ts = some (utc_to_timestamp s.last_changed)))) ∧
    (∀ (row : StatesRow) (st : State),
        States.to_native row = ReadResult.value st →
        (row.last_changed_ts = none ∨ row.last_changed_ts = row.last_updated_ts) →
        st.last_changed = st.last_updated) := by
  constructor
  · intro e eid s row hdata hrow
    cases e with
    | mk ty da o tf cx =>
      cases hdata
      by_cases h : s.last_updated = s.last_changed
      · simp only [States.from_event, if_pos h, Option.some.injEq] at hrow
        subst hrow
        exact ⟨iff_of_true rfl h.symm, fun hne => absurd h.symm hne⟩
      · simp only [States.from_event, if_neg h, Option.some.injEq] at hrow
        subst hrow
        refine ⟨iff_of_false (by simp) fun hc => h hc.symm, fun _ => rfl⟩
  · intro row st hst hcond
    simp only [States.to_native] at hst
    split at hst
    · exact ReadResult.noConfusion hst
    · rw [if_pos hcond] at hst
      injection hst with h
      subst h
      rfl

/-- Witness for C2 at concrete inputs. -/
theorem states_last_changed_c2_witness :
    ((exRowS.last_changed_ts = none ↔ exState.last_changed = exState.last_updated) ∧
      (exState.last_changed ≠ exState.last_updated →
        exRowS.last_changed_ts = some (utc_to_timestamp exState.last_changed))) ∧
    exStateRead.last_changed = exStateRead.last_updated := by
  have h := states_last_changed_c2
  exact ⟨h.1 exEventS "light.kitchen" exState exRowS rfl rfl,
    h.2 exRowCollapsed exStateRead rfl (Or.inl rfl)⟩

/-- A sample removal event (state_changed with null new_state). -/
def exEventR : Event :=
  { event_type := "state_changed"
    data := EventPayload.stateChanged "light.kitchen" none
    origin := EventOrigin.local
    time_fired := ⟨20⟩
    context := exContext }

/-- C3: a state_changed event with a null new_state produces the removal
sentinel row (empty-string state, last_updated_ts from the event's
fired-at, null last_changed_ts), and shared_attrs_bytes_from_event
returns the empty-object encoding for any exclusion configuration and
dialect. -/
theorem states_removal_c3 (e : Event) (eid : String)
    (h : e.data = EventPayload.stateChanged eid none) :
    (∃ row, States.from_event e = some row ∧
        row.state = "" ∧
        row.last_updated_ts = some (utc_to_timestamp e.time_fired) ∧
        row.last_changed_ts = none) ∧
    (∀ (excl : ExcludeAttrsByDomain) (dialect : Option SupportedDialect),
        StateAttributes.shared_attrs_bytes_from_event e excl dialect =
          some (json_bytes [], false)) := by
  cases e with
  | mk ty da o tf cx =>
    cases h
    exact ⟨⟨_, rfl, rfl, rfl, rfl⟩, fun excl dialect => rfl⟩

/-- Witness for C3 at concrete inputs. -/
theorem states_removal_c3_witness :
    (∃ row, States.from_event exEventR = some row ∧
        row.state = "" ∧
        row.last_updated_ts = some (utc_to_timestamp exEventR.time_fired) ∧
        row.last_changed_ts = none) ∧
    StateAttributes.shared_attrs_bytes_from_event exEventR [] none =
      some (json_bytes [], false) := by
  have h := states_removal_c3 exEventR "light.kitchen" rfl
  exact ⟨h.1, h.2 [] none⟩

/-- C4: whenever the attribute set, after exclusion stripping and
encoding, exceeds MAX_STATE_ATTRS_BYTES, shared_attrs_bytes_from_event
returns the empty-object encoding with the warning flag set; the
function is total, so no error reaches the caller. -/
theorem attrs_oversize_c4 (e : Event) (eid : String) (s : State)
    (excl : ExcludeAttrsByDomain) (dialect : Option SupportedDialect)
    (h : e.data = EventPayload.stateChanged eid (some s))
    (hbig : (shared_attrs_encoded s excl dialect).length > MAX_STATE_ATTRS_BYTES) :
    StateAttributes.shared_attrs_bytes_from_event e excl dialect =
      some (json_bytes [], true) := by
  cases e with
  | mk ty da o tf cx =>
    cases h
    simp only [StateAttributes.shared_attrs_bytes_from_event]
    rw [if_pos hbig]

/-- A 16600-character attribute value, larger than the size ceiling. -/
def bigS : String := String.mk (List.replicate 16600 'x')

/-- A native state whose encoded attributes exceed the ceiling. -/
def sBig : State :=
  { entity_id := "light.big"
    state := "on"
    attributes := [("a", JsonVal.str bigS)]
    last_changed := ⟨10⟩
    last_updated := ⟨20⟩
    context := exContext }

/-- A state_changed event carrying sBig. -/
def exEventBig : Event :=
  { event_type := "state_changed"
    data := EventPayload.stateChanged "light.big" (some sBig)
    origin := EventOrigin.local
    time_fired := ⟨20⟩
    context := exContext }

theorem bigS_length : bigS.length = 16600 := by
  show (List.replicate 16600 'x').length = 16600
  rw [List.length_replicate]

theorem sBig_encoded : shared_attrs_encoded sBig [] none =
    "\x7b" ++ ("\"" ++ "a" ++ "\":" ++ ("\"" ++ bigS ++ "\"")) ++ "\x7d" := rfl

theorem sBig_oversize :
    (shared_attrs_encoded sBig [] none).length > MAX_STATE_ATTRS_BYTES := by
  rw [sBig_encoded]
  simp only [String.length_append]
  rw [bigS_length, show ("\x7b" : String).length = 1 from rfl,
    show ("\x7d" : String).length = 1 from rfl, show ("\"" : String).length = 1 from rfl,
    show ("a" : String).length = 1 from rfl, show ("\":" : String).length = 2 from rfl]
  norm_num [MAX_STATE_ATTRS_BYTES]

/-- Witness for C4: the oversize event is stored as the empty object with
the warning flag. -/
theorem attrs_oversize_c4_witness :
    StateAttributes.shared_attrs_bytes_from_event exEventBig [] none =
      some (json_bytes [], true) :=
  attrs_oversize_c4 exEventBig "light.big" sBig [] none rfl sBig_oversize

/-- C5 counterexample: a dedup-sourced attribute row whose stored JSON
fails to parse is read back by StateAttributes.to_native as the empty
dict, not as null — refuting the claim that both attribute sources yield
null on malformed JSON. -/
theorem attrs_malformed_c5_counterexample :
    json_loads "not json" = none ∧
    StateAttributes.to_native
      { attributes_id := 1, hash := none, shared_attrs := some "not json" } =
      ReadResult.value [] ∧
    ReadResult.value ([] : JsonObj) ≠ ReadResult.nullResult := by
  refine ⟨rfl, rfl, fun h => ReadResult.noConfusion h⟩

/-- C5 (amended): a malformed legacy inline attributes column makes
States.to_native return null with a logged error and no exception, while
a malformed dedup-reference payload makes StateAttributes.to_native
return the empty dict with a logged error and no exception. -/
theorem attrs_malformed_c5_amended :
    (∀ (row : StatesRow) (s : String), row.attributes = some s → s ≠ "" →
        json_loads s = none → States.to_native row = ReadResult.nullResult) ∧
    (∀ (row : StateAttributesRow) (s : String), row.shared_attrs = some s →
        json_loads s = none → StateAttributes.to_native row = ReadResult.value []) := by
  constructor
  · intro row s ha hne hj
    simp only [States.to_native, ha, if_neg hne, hj]
  · intro row s ha hj
    simp only [StateAttributes.to_native, ha, hj]

/-- Witness for the amended C5 at concrete malformed rows. -/
theorem attrs_malformed_c5_amended_witness :
    States.to_native { exRowCollapsed with attributes := some "oops" } =
      ReadResult.nullResult ∧
    StateAttributes.to_native
      { attributes_id := 2, hash := none, shared_attrs := some "oops" } =
      ReadResult.value [] := by
  have h := attrs_malformed_c5_amended
  refine ⟨h.1 _ "oops" rfl (by decide) rfl, h.2 _ "oops" rfl rfl⟩

/-- C10: for EventData and StateAttributes rows whose stored JSON text
fails to parse, to_native returns the empty dict — neither null nor a
propagated exception — so a corrupt dedup payload degrades to an empty
payload. -/
theorem payload_parse_failure_c10 :
    (∀ (row : EventDataRow) (s : String), row.shared_data = some s →
        json_loads s = none → EventData.to_native row = ReadResult.value []) ∧
    (∀ (row : StateAttributesRow) (s : String), row.shared_attrs = some s →
        json_loads s = none → StateAttributes.to_native row = ReadResult.value []) := by
  constructor
  · intro row s ha hj
    simp only [EventData.to_native, ha, hj]
  · intro row s ha hj
    simp only [StateAttributes.to_native, ha, hj]

/-- Witness for C10 at concrete malformed rows. -/
theorem payload_parse_failure_c10_witness :
    EventData.to_native { data_id := 1, hash := none, shared_data := some "broken" } =
      ReadResult.value [] ∧
    StateAttributes.to_native
      { attributes_id := 3, hash := none, shared_attrs := some "broken" } =
      ReadResult.value [] := by
  have h := payload_parse_failure_c10
  exact ⟨h.1 _ "broken" rfl rfl, h.2 _ "broken" rfl rfl⟩

/-- C8: the origin-to-index mapping is exactly local to 0 and remote to
1, it is total on the two-member origin enumeration (no unknown origin is
representable at the type level, so recording an unmapped origin is a
type-level impossibility rather than a produced record), and from_event
stores exactly this index. -/
theorem origin_mapping_c8 :
    EVENT_ORIGIN_TO_IDX EventOrigin.local = some 0 ∧
    EVENT_ORIGIN_TO_IDX EventOrigin.remote = some 1 ∧
    (∀ o : EventOrigin, (EVENT_ORIGIN_TO_IDX o).isSome = true) ∧
    (∀ e : Event, (Events.from_event e).origin_idx = EVENT_ORIGIN_TO_IDX e.origin) := by
  refine ⟨rfl, rfl, fun o => ?_, fun e => rfl⟩
  cases o <;> rfl

/-- A sample statistics aggregate row. -/
def exStatRow : StatisticsRow :=
  { id := 1
    metadata_id := some 7
    start := ⟨0⟩
    created := none
    mean := some 1
    min := none
    max := none
    last_reset := none
    state := none
    sum := none }

/-- A second aggregate row with the same (metadata_id, start) key. -/
def exStatRow2 : StatisticsRow :=
  { exStatRow with id := 2, mean := some 5 }

/-- C7: both statistics tables declare a unique index on
(metadata_id, start) — with the long-term table at one-hour buckets and
the short-term table at five-minute buckets — and the enforced unique
index preserves at-most-one-row-per-key on every successful insert
while a second write with an existing key signals a conflict error
instead of overwriting. -/
theorem stats_unique_bucket_c7 :
    ((∃ ix ∈ Statistics.table_args,
        ix.columns = ["metadata_id", "start"] ∧ ix.unique = true) ∧
      (∃ ix ∈ StatisticsShortTerm.table_args,
        ix.columns = ["metadata_id", "start"] ∧ ix.unique = true) ∧
      Statistics.duration_seconds = 3600 ∧
      StatisticsShortTerm.duration_seconds = 300) ∧
    (∀ (table : List StatisticsRow) (row : StatisticsRow)
        (newTable : List StatisticsRow),
        atMostOnePerKey table →
        uniqueIndexInsert table row = Except.ok newTable →
        atMostOnePerKey newTable) ∧
    (∀ (table : List StatisticsRow) (row : StatisticsRow),
        (∃ r ∈ table, statKey r = statKey row) →
        ∃ msg, uniqueIndexInsert table row = Except.error msg) := by
  refine ⟨⟨⟨_, List.mem_cons_self _ _, rfl, rfl⟩,
    ⟨_, List.mem_cons_self _ _, rfl, rfl⟩, rfl, rfl⟩, ?_, ?_⟩
  · intro table row newTable hinv hok
    unfold uniqueIndexInsert at hok
    split at hok
    · exact Except.noConfusion hok
    · rename_i hany
      injection hok with h
      subst h
      unfold atMostOnePerKey at hinv ⊢
      rw [List.pairwise_append]
      refine ⟨hinv, List.pairwise_singleton _ _, ?_⟩
      intro a ha b hb
      have hb' : b = row := by simpa using hb
      subst hb'
      intro hk
      exact hany (List.any_eq_true.mpr ⟨a, ha, by simpa using hk⟩)
  · intro table row hex
    obtain ⟨r, hr, hk⟩ := hex
    refine ⟨"UNIQUE constraint failed", ?_⟩
    unfold uniqueIndexInsert
    rw [if_pos (List.any_eq_true.mpr ⟨r, hr, by simpa using hk⟩)]

/-- Witness for C7: inserting into an empty table succeeds and keeps the
invariant; re-inserting the same key signals a conflict. -/
theorem stats_unique_bucket_c7_witness :
    atMostOnePerKey [exStatRow] ∧
    ∃ msg, uniqueIndexInsert [exStatRow] exStatRow2 = Except.error msg := by
  have h := stats_unique_bucket_c7
  refine ⟨h.2.1 [] exStatRow [exStatRow] (List.Pairwise.nil) rfl, ?_⟩
  exact h.2.2 [exStatRow] exStatRow2 ⟨exStatRow, List.mem_cons_self _ _, rfl⟩

/-- A legacy-format states row updated at epoch 15. -/
def exRowLegacy : StatesRow :=
  { exRowCollapsed with entity_id := "light.x", last_updated := some ⟨15⟩ }

/-- A finished recorder run covering [0, 10). -/
def exRun : RecorderRun :=
  { run_id := 1, start := ⟨0⟩, end_ := some ⟨10⟩, closed_incorrect := false }

/-- C6 counterexample: with a run ending at 10, a point_in_time of 20 and
a state row updated at 15, entity_ids includes the row (point_in_time
alone bounds the query) although the claimed interval
[start, min(point_in_time, end)) excludes it. -/
theorem run_entity_ids_c6_counterexample :
    "light.x" ∈ RecorderRuns.entity_ids [exRowLegacy] exRun (some ⟨20⟩) ∧
    "light.x" ∉ entityIdsActiveDuring [exRowLegacy] exRun (some ⟨20⟩) ⟨30⟩ := by
  constructor <;> decide

/-- The upper bound actually applied by RecorderRuns.entity_ids:
point_in_time takes precedence when given (even beyond the run end),
otherwise the run end when set, otherwise no bound at all. -/
def upperBoundOk (run : RecorderRun) (point_in_time : Option UtcDateTime)
    (t : UtcDateTime) : Prop :=
  match point_in_time with
  | some p => t.epoch < p.epoch
  | none =>
    match run.end_ with
    | some e => t.epoch < e.epoch
    | none => True

/-- C6 (amended): entity_ids returns exactly the distinct entity-ids of
state rows whose legacy last_updated column lies at or above the run
start and below the applied upper bound — point_in_time when provided,
else the run end when set, else unbounded — rather than below
min(point_in_time, end-or-now). -/
theorem run_entity_ids_c6_amended (db : List StatesRow) (run : RecorderRun)
    (point_in_time : Option UtcDateTime) (x : String) :
    x ∈ RecorderRuns.entity_ids db run point_in_time ↔
      ∃ r ∈ db, r.entity_id = x ∧ ∃ t : UtcDateTime, r.last_updated = some t ∧
        run.start.epoch ≤ t.epoch ∧ upperBoundOk run point_in_time t := by
  simp only [RecorderRuns.entity_ids]
  cases point_in_time with
  | some p =>
    simp only [List.mem_toFinset, List.mem_map, List.mem_filter, upperBoundOk]
    constructor
    · rintro ⟨r, ⟨⟨hdb, h1⟩, h2⟩, hx⟩
      cases hlu : r.last_updated with
      | none => rw [hlu] at h1; exact absurd h1 (by simp)
      | some t =>
        rw [hlu] at h1 h2
        exact ⟨r, hdb, hx, t, hlu, of_decide_eq_true h1, of_decide_eq_true h2⟩
    · rintro ⟨r, hdb, hx, t, hlu, hle, hub⟩
      exact ⟨r, ⟨⟨hdb, by rw [hlu]; exact decide_eq_true hle⟩,
        by rw [hlu]; exact decide_eq_true hub⟩, hx⟩
  | none =>
    cases hend : run.end_ with
    | some e =>
      simp only [List.mem_toFinset, List.mem_map, List.mem_filter, upperBoundOk, hend]
      constructor
      · rintro ⟨r, ⟨⟨hdb, h1⟩, h2⟩, hx⟩
        cases hlu : r.last_updated with
        | none => rw [hlu] at h1; exact absurd h1 (by simp)
        | some t =>
          rw [hlu] at h1 h2
          exact ⟨r, hdb, hx, t, hlu, of_decide_eq_true h1, of_decide_eq_true h2⟩
      · rintro ⟨r, hdb, hx, t, hlu, hle, hub⟩
        exact ⟨r, ⟨⟨hdb, by rw [hlu]; exact decide_eq_true hle⟩,
          by rw [hlu]; exact decide_eq_true hub⟩, hx⟩
    | none =>
      simp only [List.mem_toFinset, List.mem_map, List.mem_filter, upperBoundOk, hend]
      constructor
      · rintro ⟨r, ⟨hdb, h1⟩, hx⟩
        cases hlu : r.last_updated with
        | none => rw [hlu] at h1; exact absurd h1 (by simp)
        | some t =>
          rw [hlu] at h1
          exact ⟨r, hdb, hx, t, hlu, of_decide_eq_true h1, trivial⟩
      · rintro ⟨r, hdb, hx, t, hlu, hle, _⟩
        exact ⟨r, ⟨hdb, by rw [hlu]; exact decide_eq_true hle⟩, hx⟩

/-- C9: the canonical attribute encoding encodes exactly the pairs left
after dropping every key in the union of the domain-specific and global
exclusion sets, dropping null-valued keys exactly when the dialect is
PostgreSQL and retaining them for every other dialect; the same dialect
rule governs the event data encoding. -/
theorem attrs_encoding_c9 :
    (∀ (state : State) (m : ExcludeAttrsByDomain) (dialect : Option SupportedDialect),
        shared_attrs_encoded state m dialect =
          json_bytes (specStoredAttrPairs state m dialect)) ∧
    (∀ (state : State) (m : ExcludeAttrsByDomain) (dialect : Option SupportedDialect)
        (k : String) (v : JsonVal),
        (k, v) ∈ specStoredAttrPairs state m dialect ↔
          ((k, v) ∈ state.attributes ∧
            k ∉ domainExcludeAttrs m (split_entity_id state.entity_id).1 ∧
            k ∉ ALL_DOMAIN_EXCLUDE_ATTRS ∧
            (dialect = some SupportedDialect.postgresql → v ≠ JsonVal.null))) ∧
    (∀ (e : Event) (obj : JsonObj) (dialect : Option SupportedDialect),
        e.data = EventPayload.json obj →
        EventData.shared_data_bytes_from_event e dialect =
          some (if dialect = some SupportedDialect.postgresql then
                  json_bytes (obj.filter fun kv => decide (kv.2 ≠ JsonVal.null))
                else json_bytes obj)) := by
  refine ⟨?_, ?_, ?_⟩
  · intro state m dialect
    by_cases hd : dialect = some SupportedDialect.postgresql
    · simp only [shared_attrs_encoded, specStoredAttrPairs, if_pos hd,
        json_bytes_strip_null]
      rw [List.filter_filter]
      congr 1
      apply List.filter_congr
      intro kv _
      by_cases h1 : kv.1 ∈ domainExcludeAttrs m (split_entity_id state.entity_id).1 <;>
        by_cases h2 : kv.1 ∈ ALL_DOMAIN_EXCLUDE_ATTRS <;>
        by_cases h3 : kv.2 = JsonVal.null <;>
        simp [h1, h2, h3, hd, List.mem_append]
    · simp only [shared_attrs_encoded, specStoredAttrPairs, if_neg hd]
      congr 1
      apply List.filter_congr
      intro kv _
      by_cases h1 : kv.1 ∈ domainExcludeAttrs m (split_entity_id state.entity_id).1 <;>
        by_cases h2 : kv.1 ∈ ALL_DOMAIN_EXCLUDE_ATTRS <;>
        simp [h1, h2, hd, List.mem_append]
  · intro state m dialect k v
    by_cases hd : dialect = some SupportedDialect.postgresql <;>
      simp [specStoredAttrPairs, List.mem_filter, hd, and_assoc]
  · intro e obj dialect h
    cases e with
    | mk ty da o tf cx =>
      cases h
      by_cases hd : dialect = some SupportedDialect.postgresql <;>
        simp [EventData.shared_data_bytes_from_event, hd, json_bytes_strip_null]

/-- A sample event carrying a generic JSON payload with a null value. -/
def exEventJ : Event :=
  { event_type := "custom"
    data := EventPayload.json [("a", JsonVal.null), ("b", JsonVal.num 1)]
    origin := EventOrigin.remote
    time_fired := ⟨5⟩
    context := exContext }

/-- Witness for C9: under PostgreSQL, the event data encoding drops the
null-valued key. -/
theorem attrs_encoding_c9_witness :
    EventData.shared_data_bytes_from_event exEventJ (some SupportedDialect.postgresql) =
      some (json_bytes [("b", JsonVal.num 1)]) := by
  rw [attrs_encoding_c9.2.2 exEventJ [("a", JsonVal.null), ("b", JsonVal.num 1)]
    (some SupportedDialect.postgresql) rfl]
  decide

end Recorder
